import Mathlib

/-!
Verification of the cc-analytics-dashboard repository: a shallow embedding of
the synthetic-data generator (data_generation.py) and the metric-computation
functions (metrics.py), over exact rationals, with Python exceptions modelled
by Except.  Definitions follow the Python source line by line; Python floats
are modelled by rationals and Python round (round-half-to-even at a decimal
position) by an explicit half-even rounding function.
-/

/-- Errors a modelled Python computation can raise. -/
inductive PyErr where
  | keyError : String → PyErr
  | typeError : PyErr
deriving DecidableEq, Repr

/-- Round-half-to-even to the nearest integer, the rounding used by the
Python builtin round. -/
def rhe (q : ℚ) : ℤ :=
  if q - ⌊q⌋ < 1/2 then ⌊q⌋
  else if 1/2 < q - ⌊q⌋ then ⌊q⌋ + 1
  else if ⌊q⌋ % 2 = 0 then ⌊q⌋ else ⌊q⌋ + 1

/-- Model of Python round(x, n): round half to even at the n-th decimal. -/
def roundTo (n : ℕ) (x : ℚ) : ℚ :=
  (rhe (x * 10 ^ n) : ℚ) / 10 ^ n

theorem rhe_intCast (n : ℤ) : rhe (n : ℚ) = n := by
  unfold rhe
  norm_num

theorem rhe_le_rhe {a b : ℚ} (h : a ≤ b) : rhe a ≤ rhe b := by
  have hf : ⌊a⌋ ≤ ⌊b⌋ := Int.floor_mono h
  rcases lt_or_eq_of_le hf with hlt | heq
  · have hA : rhe a ≤ ⌊a⌋ + 1 := by
      unfold rhe; split_ifs <;> omega
    have hB : ⌊b⌋ ≤ rhe b := by
      unfold rhe; split_ifs <;> omega
    omega
  · have hfa : ⌊a⌋ = ⌊b⌋ := heq
    have hra : a - ⌊a⌋ ≤ b - ⌊b⌋ := by
      rw [← hfa]; linarith
    unfold rhe
    rw [hfa] at hra ⊢
    split_ifs <;> first | omega | linarith

theorem roundTo_mono (n : ℕ) {a b : ℚ} (h : a ≤ b) : roundTo n a ≤ roundTo n b := by
  unfold roundTo
  have h10 : (0:ℚ) < 10 ^ n := by positivity
  have hm : a * 10 ^ n ≤ b * 10 ^ n := by nlinarith
  have := rhe_le_rhe hm
  have hc : ((rhe (a * 10 ^ n) : ℚ)) ≤ (rhe (b * 10 ^ n) : ℚ) := by exact_mod_cast this
  exact div_le_div_of_nonneg_right hc h10.le

theorem roundTo_intCast (n : ℕ) (k : ℤ) : roundTo n (k : ℚ) = k := by
  unfold roundTo
  have : ((k : ℚ) * 10 ^ n) = ((k * 10 ^ n : ℤ) : ℚ) := by push_cast; ring
  rw [this, rhe_intCast]
  have h10 : ((10:ℚ) ^ n) ≠ 0 := by positivity
  push_cast
  field_simp

theorem roundTo_bounds (n : ℕ) {lo hi : ℤ} {x : ℚ} (hlo : (lo:ℚ) ≤ x) (hhi : x ≤ hi) :
    (lo:ℚ) ≤ roundTo n x ∧ roundTo n x ≤ hi := by
  constructor
  · have := roundTo_mono n hlo
    rwa [roundTo_intCast] at this
  · have := roundTo_mono n hhi
    rwa [roundTo_intCast] at this

/-- Value of a key in a modelled Python dict: the dynamic types that occur in
the compliance and quality dicts of this repository (booleans, strings,
lists of strings, numbers). -/
inductive Val where
  | b : Bool → Val
  | s : String → Val
  | sl : List String → Val
  | q : ℚ → Val
deriving DecidableEq, Repr

/-- Model of isinstance(v, bool). -/
def Val.isBool : Val → Bool
  | .b _ => true
  | _ => false

/-- Python truthiness of a Val. -/
def Val.truthy : Val → Bool
  | .b x => x
  | .s t => t ≠ ""
  | .sl l => !l.isEmpty
  | .q r => r ≠ 0

/-- Model of Python len(v): defined for strings and lists, a TypeError on
booleans and numbers. -/
def Val.pyLen : Val → Except PyErr ℕ
  | .s t => .ok t.length
  | .sl l => .ok l.length
  | _ => .error .typeError

/-- Model of dict.get(key, default) on an association-list dict. -/
def dictGet (d : List (String × Val)) (k : String) (dflt : Val) : Val :=
  (d.lookup k).getD dflt

/-- Output dict of compliance_score.  The early return for an input with no
boolean fields carries no critical_violations_count key, modelled by none. -/
structure CompOut where
  score : ℚ
  risk_points : ℕ
  risk_level : String
  critical_violations_count : Option ℕ
deriving DecidableEq, Repr

/-- Critical compliance fields (each missing one adds 5 risk points), from
CRITICAL_COMPLIANCE_FIELDS in metrics.py. -/
def CRITICAL_COMPLIANCE_FIELDS : List String :=
  ["data_protection_mentioned", "customer_verification", "no_misleading_info"]

/-- Weighted compliance fields, from COMPLIANCE_WEIGHTS in metrics.py. -/
def COMPLIANCE_WEIGHTS : List (String × ℕ) :=
  [("call_recording_notice", 3), ("proper_closing", 2), ("greeting_proper", 1)]

/-- Embedding of metrics.compliance_score: percentage of passed boolean
fields, risk points from missing critical or weighted fields and from a
non-empty critical_violations list, and a thresholded risk level.  The final
len(critical_violations) raises a TypeError when that key holds a
non-sequence value. -/
def compliance_score (comp : List (String × Val)) : Except PyErr CompOut :=
  let bool_items := comp.filter (fun p => p.2.isBool)
  if bool_items.length = 0 then
    .ok ⟨0, 100, "High", none⟩
  else
    let passed := bool_items.countP (fun p => p.2.truthy)
    let score := roundTo 1 (100 * passed / bool_items.length)
    let rp1 := (CRITICAL_COMPLIANCE_FIELDS.filter
      (fun f => !(dictGet comp f (.b false)).truthy)).length * 5
    let rp2 := (COMPLIANCE_WEIGHTS.filter
      (fun p => !(dictGet comp p.1 (.b false)).truthy)).map (fun p => p.2) |>.sum
    let cv := dictGet comp "critical_violations" (.sl [])
    let rp3 := if cv.truthy then 7 else 0
    let risk_points := rp1 + rp2 + rp3
    let risk_level := if risk_points < 5 then "Low"
      else if risk_points < 15 then "Medium" else "High"
    match cv.pyLen with
    | .error e => .error e
    | .ok n => .ok ⟨score, risk_points, risk_level, some n⟩

/-- Embedding of metrics.quality_binary_score: percentage of the four fixed
boolean quality fields that hold (missing keys default to False). -/
def quality_binary_score (q : List (String × Val)) : ℚ :=
  let items : List Bool :=
    [(dictGet q "active_listening" (.b false)).truthy,
     (dictGet q "empathy_shown" (.b false)).truthy,
     (dictGet q "solution_offered" (.b false)).truthy,
     (dictGet q "professional_tone" (.b false)).truthy]
  roundTo 1 (100 * (items.countP id) / 4)

/-- Embedding of metrics.aes: the Agent Effectiveness Score, a weighted sum
of a clamped sentiment-delta component, the compliance score, a resolution
component and the quality score, rounded to one decimal. -/
def aes (sentiment_start sentiment_end comp_score : ℚ) (res_achieved : String)
    (quality_score : ℚ) : ℚ :=
  let sentiment_delta := sentiment_end - sentiment_start
  let sentiment_component := max 0 (min 100 (((sentiment_delta + 2) / 4) * 100))
  let resolution_component : ℚ :=
    if res_achieved = "full" then 100
    else if res_achieved = "partial" then 50
    else 0
  roundTo 1 (0.25 * sentiment_component + 0.30 * comp_score +
    0.30 * resolution_component + 0.15 * quality_score)

/-- Resolution dict produced by generate_autoqa_resolution, as a record. -/
structure Resolution where
  issue_identified : Bool
  issue_category : String
  resolution_achieved : String
  customer_satisfied : Bool
  callback_needed : Bool
  escalated : Bool
  escalation_reason : String
deriving DecidableEq, Repr

/-- Embedding of metrics.is_fcr: full resolution, no callback, no
escalation. -/
def is_fcr (res : Resolution) : Bool :=
  res.resolution_achieved == "full" && !res.callback_needed && !res.escalated

/-- Row of the calls DataFrame, restricted to the fields the metric
functions under verification read. -/
structure Call where
  timestamp : ℤ
  agent_id : String
  agent_name : String
  team : String
  duration_sec : ℚ
  sentiment_start : ℚ
  sentiment_end : ℚ
  compliance : List (String × Val)
  resolution : Resolution
  quality : List (String × Val)
deriving DecidableEq, Repr

/-- Embedding of metrics.calculate_aes_for_call: AES of one row, from its
compliance score (which can raise), resolution outcome and quality score. -/
def calculate_aes_for_call (c : Call) : Except PyErr ℚ :=
  match compliance_score c.compliance with
  | .error e => .error e
  | .ok comp =>
    .ok (aes c.sentiment_start c.sentiment_end comp.score
      c.resolution.resolution_achieved (quality_binary_score c.quality))

/-- Output dict of calculate_fcr_rate. -/
structure FcrOut where
  fcr_rate : ℚ
  fcr_count : ℕ
  total_calls : ℕ
deriving DecidableEq, Repr

/-- Embedding of metrics.calculate_fcr_rate. -/
def calculate_fcr_rate (calls : List Call) : FcrOut :=
  if calls.length = 0 then ⟨0, 0, 0⟩
  else
    let fcr_count := calls.countP (fun c => is_fcr c.resolution)
    ⟨roundTo 1 (100 * fcr_count / calls.length), fcr_count, calls.length⟩

/-- Occurrences of a value in a list: the count a groupby or an accumulating
dict assigns to each key. -/
def countD [DecidableEq α] (l : List α) (a : α) : ℕ :=
  l.countP (fun x => decide (x = a))

/-- Output dict of calculate_escalation_prevention_rate; reasons_breakdown
is the dict reason → count over escalated calls. -/
structure EprOut where
  epr : ℚ
  prevented_count : ℕ
  escalated_count : ℕ
  reasons_breakdown : List (String × ℕ)
deriving DecidableEq, Repr

/-- Embedding of metrics.calculate_escalation_prevention_rate. -/
def calculate_escalation_prevention_rate (calls : List Call) : EprOut :=
  if calls.length = 0 then ⟨0, 0, 0, []⟩
  else
    let escalated_count := calls.countP (fun c => c.resolution.escalated)
    let prevented_count := calls.length - escalated_count
    let epr := roundTo 1 (100 * prevented_count / calls.length)
    let reasons :=
      (calls.filter (fun c => c.resolution.escalated)).map
        (fun c => c.resolution.escalation_reason)
    ⟨epr, prevented_count, escalated_count,
      reasons.dedup.map (fun r => (r, countD reasons r))⟩

/-- Per-topic configuration record, from the TOPICS constant in
data_generation.py. -/
structure TopicCfg where
  complexity : ℕ
  avg_duration : ℚ
  sent_start : ℚ
  benchmark_aht : ℚ
deriving DecidableEq, Repr

/-- Embedding of the TOPICS constant of data_generation.py, in dict insertion
order. -/
def TOPICS : List (String × TopicCfg) :=
  [("billing", ⟨2, 240, -0.3, 4.2⟩),
   ("technical", ⟨4, 480, -0.5, 8.5⟩),
   ("product_info", ⟨2, 180, 0.2, 3.1⟩),
   ("complaint", ⟨3, 420, -0.6, 7.0⟩),
   ("account", ⟨2, 210, -0.1, 3.8⟩),
   ("order", ⟨3, 270, 0.1, 4.5⟩)]

/-- Calls whose resolution dict carries the given issue_category, as filtered
by calculate_tre. -/
def topicCalls (calls : List Call) (t : String) : List Call :=
  calls.filter (fun c => c.resolution.issue_category == t)

/-- Mean of the duration_sec column of a list of calls. -/
def avgDuration (l : List Call) : ℚ :=
  (l.map (fun c => c.duration_sec)).sum / l.length

/-- Efficiency formula of calculate_tre: 100 at or under the benchmark,
otherwise 100·(1 − overrun/benchmark) clamped at 0. -/
def treEfficiency (avg_time benchmark : ℚ) : ℚ :=
  if avg_time ≤ benchmark then 100
  else max 0 (100 * (1 - (avg_time - benchmark) / benchmark))

/-- Row of the DataFrame returned by calculate_tre. -/
structure TreRow where
  topic : String
  avg_time : ℚ
  benchmark : ℚ
  efficiency : ℚ
  resolution_rate : ℚ
  status : String
  call_count : ℕ
deriving DecidableEq, Repr

/-- Row calculate_tre builds for one topic with at least one call. -/
def treRowFor (calls : List Call) (t : String) (cfg : TopicCfg) : TreRow :=
  let tc := topicCalls calls t
  let avg_time := avgDuration tc
  let eff := treEfficiency avg_time cfg.avg_duration
  let resolved := tc.countP (fun c => c.resolution.resolution_achieved == "full")
  let resolution_rate := roundTo 1 (100 * resolved / tc.length)
  let status :=
    if 90 ≤ eff ∧ 80 ≤ resolution_rate then "Excellent"
    else if 70 ≤ eff ∧ 70 ≤ resolution_rate then "Good"
    else if 50 ≤ eff then "Needs Improvement"
    else "Critical"
  ⟨t.capitalize, roundTo 1 avg_time, cfg.avg_duration, roundTo 1 eff,
    resolution_rate, status, tc.length⟩

/-- Embedding of metrics.calculate_tre: one row per topic of TOPICS that has
at least one call. -/
def calculate_tre (calls : List Call) : List TreRow :=
  TOPICS.filterMap (fun p =>
    if (topicCalls calls p.1).length = 0 then none
    else some (treRowFor calls p.1 p.2))

/-- Arithmetic mean as computed by np.mean. -/
def npMean (l : List ℚ) : ℚ := l.sum / l.length

/-- Population variance as computed by np.std squared (ddof = 0). -/
def npVar (l : List ℚ) : ℚ :=
  (l.map (fun x => (x - npMean l) ^ 2)).sum / l.length

/-- Output dict of the aci function. -/
structure AciOut where
  aci : ℚ
  stability : String
  std : ℚ
  mean : ℚ
deriving DecidableEq, Repr

/-- Embedding of metrics.aci.  The source computes std = np.std(aes_series),
a square root that is irrational in general; the embedding takes std as an
explicit argument, and every theorem about aci constrains it by 0 ≤ std and
std ^ 2 = npVar aes_series, so the function is examined exactly at the value
the source computes whenever that value is rational. -/
def aci (aes_series : List ℚ) (std : ℚ) : AciOut :=
  if aes_series.length < 2 then
    ⟨100, "N/A", 0, roundTo 1 (aes_series.headD 0)⟩
  else
    let mean := npMean aes_series
    let cv := if 0 < mean then std / mean else 0
    let score := max 0 (100 - 100 * cv)
    let stability :=
      if 85 ≤ score then "Very Stable"
      else if 70 ≤ score then "Stable"
      else if 50 ≤ score then "Unstable"
      else "Highly Unstable"
    ⟨roundTo 1 score, stability, roundTo 1 std, roundTo 1 mean⟩

/-- Embedding of metrics.bucket_sentiment. -/
def bucket_sentiment (value : ℚ) : String :=
  if value < -0.2 then "Neg"
  else if value ≤ 0.2 then "Neutral"
  else "Pos"

/-- Start/end sentiment bucket pair of every call, in row order. -/
def transitionPairs (calls : List Call) : List (String × String) :=
  calls.map (fun c =>
    (bucket_sentiment c.sentiment_start, bucket_sentiment c.sentiment_end))

/-- Row of the transition DataFrame of compute_sentiment_buckets. -/
structure TransRow where
  start_bucket : String
  end_bucket : String
  count : ℕ
  pct : ℚ
deriving DecidableEq, Repr

/-- Embedding of metrics.compute_sentiment_buckets: group the bucket pairs
and count each distinct transition. -/
def compute_sentiment_buckets (calls : List Call) : List TransRow :=
  if calls.length = 0 then []
  else
    let ps := transitionPairs calls
    ps.dedup.map (fun p =>
      ⟨p.1, p.2, countD ps p, roundTo 1 (100 * (countD ps p) / calls.length)⟩)

/-- Column names of the calls DataFrame produced by generate_dataset (the
base schema a metric function may extend). -/
def baseCols : List String :=
  ["call_id", "timestamp", "direction", "language", "agent_id", "agent_name",
   "team", "duration_sec", "agent_talk_sec", "customer_talk_sec", "turns",
   "silence_ratio", "interrupt_count", "sentiment_start", "sentiment_middle",
   "sentiment_end", "compliance", "resolution", "quality", "topic_data",
   "sales_opportunity", "autoqa_score", "benchmark_aht"]

/-- Mutable calls DataFrame: the base rows plus any columns later assigned to
it, as column name → column values. -/
structure DF where
  rows : List Call
  extra : List (String × List Val)
deriving DecidableEq, Repr

/-- Columns of a DF: the base schema plus the assigned columns. -/
def DF.columns (df : DF) : List String := baseCols ++ df.extra.map (fun p => p.1)

/-- Values of an assigned column, if present. -/
def colVals (df : DF) (n : String) : Option (List Val) := df.extra.lookup n

/-- Model of the pandas column assignment df[name] = vals. -/
def setCol (df : DF) (name : String) (vals : List Val) : DF :=
  ⟨df.rows, df.extra.filter (fun p => p.1 != name) ++ [(name, vals)]⟩

/-- Model of a pandas column-wise apply: map a fallible function over the
rows, propagating the first raised error. -/
def mapME (f : α → Except PyErr β) : List α → Except PyErr (List β)
  | [] => .ok []
  | a :: t =>
    match f a with
    | .error e => .error e
    | .ok b =>
      match mapME f t with
      | .error e => .error e
      | .ok bs => .ok (b :: bs)

/-- Embedding of the statements of metrics.calculate_agent_aggregates that
touch the caller's DataFrame: the three column assignments (aes, comp_score,
is_fcr) applied to calls_df before the per-agent aggregation.  The returned
per-agent table is a pure read of the mutated DataFrame (its aci values
involve np.std square roots) and is not modelled; the claim under
verification concerns only what happens to the input DataFrame. -/
def calculate_agent_aggregates (df : DF) : Except PyErr DF :=
  match mapME calculate_aes_for_call df.rows with
  | .error e => .error e
  | .ok aesCol =>
    let df1 := setCol df "aes" (aesCol.map Val.q)
    match mapME (fun c => compliance_score c.compliance) df.rows with
    | .error e => .error e
    | .ok comps =>
      let df2 := setCol df1 "comp_score" (comps.map (fun o => Val.q o.score))
      let df3 := setCol df2 "is_fcr" (df.rows.map (fun c => Val.b (is_fcr c.resolution)))
      .ok df3

/-- Embedding of the statements of metrics.calculate_7day_trend that touch
the caller's DataFrame: the conditional aes assignment (only when metric_col
is absent and equals "aes") and the unconditional date assignment.  The
returned 7-row daily table is a pure read of the mutated DataFrame and is
not modelled. -/
def calculate_7day_trend (df : DF) (metric_col : String) : Except PyErr DF :=
  let step1 : Except PyErr DF :=
    if metric_col ∈ df.columns then .ok df
    else if metric_col = "aes" then
      match mapME calculate_aes_for_call df.rows with
      | .error e => .error e
      | .ok aesCol => .ok (setCol df "aes" (aesCol.map Val.q))
    else .ok df
  match step1 with
  | .error e => .error e
  | .ok df1 =>
    .ok (setCol df1 "date" (df.rows.map (fun c => Val.q (Int.fdiv c.timestamp 86400))))

/-- State of the two pseudo-random streams the generator uses: the random
module stream and the numpy stream (pandas sample draws from the latter),
both seeded with the same seed. -/
structure Gen where
  seed : ℤ
  pyIdx : ℕ
  npIdx : ℕ
deriving DecidableEq, Repr

/-- Modelled from the spec: "deterministically, from a seed".  The random
module PRNG: random.seed(seed) makes every later draw a pure function of the
seed; the Mersenne Twister internals are standard-library code outside this
repository, modelled by an explicit integer-hash stream of rationals in
[0, 1). -/
def pyStream (seed : ℤ) (i : ℕ) : ℚ :=
  (((seed * 7919 + (i : ℤ) * 104729 + 12345) % 9973 : ℤ) : ℚ) / 9973

/-- Modelled from the spec: the numpy PRNG seeded by np.random.seed(seed),
as a second deterministic stream. -/
def npStream (seed : ℤ) (i : ℕ) : ℚ :=
  (((seed * 6151 + (i : ℤ) * 75403 + 9587) % 9949 : ℤ) : ℚ) / 9949

/-- Model of random.random(): next rational in [0, 1) of the stream. -/
def pyRand (g : Gen) : ℚ × Gen :=
  (pyStream g.seed g.pyIdx, {g with pyIdx := g.pyIdx + 1})

/-- Next draw of the numpy stream. -/
def npRand (g : Gen) : ℚ × Gen :=
  (npStream g.seed g.npIdx, {g with npIdx := g.npIdx + 1})

/-- Model of the random module drawing an index below n. -/
def pyRandBelow (n : ℕ) (g : Gen) : ℕ × Gen :=
  let (u, g1) := pyRand g
  ((⌊u * n⌋).toNat, g1)

/-- Model of random.randint(a, b): both bounds inclusive. -/
def pyRandint (a b : ℤ) (g : Gen) : ℤ × Gen :=
  let (u, g1) := pyRand g
  (a + ⌊u * ((b - a + 1 : ℤ) : ℚ)⌋, g1)

/-- Model of random.uniform(a, b). -/
def pyUniform (a b : ℚ) (g : Gen) : ℚ × Gen :=
  let (u, g1) := pyRand g
  (a + u * (b - a), g1)

/-- Model of random.choice on a list of strings. -/
def pyChoice (l : List String) (g : Gen) : String × Gen :=
  let (i, g1) := pyRandBelow l.length g
  (l.getD i "", g1)

/-- Walk a cumulative-weight table to pick the element a target value falls
in. -/
def pickW : List String → List ℚ → ℚ → String
  | [], _, _ => ""
  | x :: _, [], _ => x
  | x :: xs, w :: ws, t =>
    if t < w then x else if xs.isEmpty then x else pickW xs ws (t - w)

/-- Model of random.choices(l, weights=w)[0]: one weighted draw. -/
def pyChoiceW (l : List String) (w : List ℚ) (g : Gen) : String × Gen :=
  let (u, g1) := pyRand g
  (pickW l w (u * w.sum), g1)

/-- Model of random.gauss(mu, sigma): a deterministic function of two
uniform draws standing in for the library transform. -/
def pyGauss (mu sigma : ℚ) (g : Gen) : ℚ × Gen :=
  let (u1, g1) := pyRand g
  let (u2, g2) := pyRand g1
  (mu + sigma * (u1 + u2 - 1), g2)

/-- Model of random.sample(l, k): k draws without replacement. -/
def sampleK : ℕ → List String → Gen → List String × Gen
  | 0, _, g => ([], g)
  | _ + 1, [], g => ([], g)
  | k + 1, l, g =>
    let (i, g1) := pyRandBelow l.length g
    let (rest, g2) := sampleK k (l.eraseIdx i) g1
    (l.getD i "" :: rest, g2)

/-- Model of agents_df.sample(1): one numpy-stream index draw below n. -/
def npRandBelow (n : ℕ) (g : Gen) : ℕ × Gen :=
  let (u, g1) := npRand g
  ((⌊u * n⌋).toNat, g1)

/-- Agent phrase pools, from data_generation.py. -/
def CZECH_PHRASES : List String :=
  ["Dobrý den", "Jak vám mohu pomoci?", "Rozumím vašemu problému",
   "Moment prosím", "Podívám se na to", "Mám tady vaše údaje",
   "Děkuji za pochopení", "Je to vyřešeno", "Můžu vám ještě s něčím pomoci?",
   "Nashledanou", "Omlouvám se za komplikace", "Zkontrolujte prosím",
   "Máte nějaké další dotazy?", "Rád vám pomohu", "Nechte mi chvíli",
   "Ano, to je správně", "Bohužel to není možné", "Zkusíme to vyřešit"]

/-- Slovak agent phrases. -/
def SLOVAK_PHRASES : List String :=
  ["Dobrý deň", "Ako vám môžem pomôcť?", "Rozumiem vášmu problému",
   "Moment prosím", "Pozriem sa na to", "Mám tu vaše údaje",
   "Ďakujem za pochopenie", "Je to vyriešené", "Môžem vám ešte s niečím pomôcť?",
   "Dovidenia", "Ospravedlňujem sa za komplikácie", "Skontrolujte prosím",
   "Máte nejaké ďalšie otázky?", "Rád vám pomôžem", "Nechajte mi chvíľu"]

/-- English agent phrases. -/
def ENGLISH_PHRASES : List String :=
  ["Good day", "How can I help you?", "I understand your issue",
   "One moment please", "Let me check that", "I have your information here",
   "Thank you for your patience", "It's resolved", "Can I help with anything else?",
   "Goodbye", "I apologize for the inconvenience", "Please verify",
   "Do you have any other questions?", "I'm happy to help", "Give me a moment"]

/-- Czech customer phrases. -/
def CUSTOMER_PHRASES_CS : List String :=
  ["Volám kvůli faktúře", "Nemůžu se přihlásit", "To nefunguje",
   "Chtěl bych se zeptat", "Kdy to bude opraveno?", "Nerozumím tomu",
   "Děkuji", "To je výborné", "Konečně", "Je to složité",
   "Můžete mi vysvětlit?", "Co mám dělat?", "Potřebuji pomoc"]

/-- Slovak customer phrases. -/
def CUSTOMER_PHRASES_SK : List String :=
  ["Volám kvôli faktúre", "Nemôžem sa prihlásiť", "To nefunguje",
   "Chcel by som sa opýtať", "Kedy to bude opravené?", "Nerozumiem tomu",
   "Ďakujem", "To je výborné", "Konečne", "Je to zložité"]

/-- English customer phrases. -/
def CUSTOMER_PHRASES_EN : List String :=
  ["I'm calling about my bill", "I can't log in", "It's not working",
   "I'd like to ask", "When will this be fixed?", "I don't understand",
   "Thank you", "That's great", "Finally", "This is complicated"]

/-- Sales products, from data_generation.py. -/
def SALES_PRODUCTS : List String :=
  ["Premium Plan", "Extended Warranty", "Add-on Service", "Upgrade Package", "Bundle Deal"]

/-- Teams, from data_generation.py. -/
def TEAMS : List String := ["Sales", "Support", "Tech", "Retention"]

/-- Configuration of a topic, defaulting like the source only for topics the
generator never produces. -/
def topicCfg (t : String) : TopicCfg := (TOPICS.lookup t).getD ⟨0, 0, 0, 0⟩

/-- Model of len(text.split()). -/
def wordCount (t : String) : ℕ :=
  ((t.splitOn " ").filter (fun w => w != "")).length

/-- Transcript segment dict. -/
structure Seg where
  speaker : String
  text : String
  start_time : ℚ
  end_time : ℚ
  word_count : ℕ
  wpm : ℤ
deriving DecidableEq, Repr

/-- Loop body of generate_transcript_segments: up to n more segments, from
the given current time and previous speaker.  The first wpm computed in the
source is dead (immediately overwritten by the drawn one) and omitted. -/
def genSegLoop (d : ℚ) (ap cp : List String) (si : Bool) :
    ℕ → ℚ → String → Gen → List Seg × Gen
  | 0, _, _, g => ([], g)
  | n + 1, ct, sp, g =>
    if d ≤ ct then ([], g)
    else
      let sp1 := if sp = "AGENT" then "CUSTOMER" else "AGENT"
      let (text, g1) := pyChoice (if sp1 = "AGENT" then ap else cp) g
      let (segdur, g2) := pyUniform 3 8 g1
      let st := ct
      let en := min (ct + segdur) d
      let (st2, g3) :=
        if si then
          let (u, ga) := pyRand g2
          if u < 0.05 then
            let (ov, gb) := pyUniform 0.2 0.8 ga
            (max 0 (st - ov), gb)
          else (st, ga)
        else (st, g2)
      let base : ℚ := if sp1 = "AGENT" then 145 else 138
      let (vw, g4) := pyUniform (-0.2 * base) (0.2 * base) g3
      let (pause, g5) := pyUniform 0.5 2 g4
      let (rest, g6) := genSegLoop d ap cp si n (en + pause) sp1 g5
      (⟨sp1, text, roundTo 2 st2, roundTo 2 en, wordCount text, ⌊base + vw⌋⟩ :: rest, g6)

/-- Embedding of data_generation.generate_transcript_segments. -/
def generate_transcript_segments (duration_sec : ℚ) (language topic : String)
    (si : Bool) (g : Gen) : List Seg × Gen :=
  let ap := if language = "cs" then CZECH_PHRASES
    else if language = "sk" then SLOVAK_PHRASES else ENGLISH_PHRASES
  let cp := if language = "cs" then CUSTOMER_PHRASES_CS
    else if language = "sk" then CUSTOMER_PHRASES_SK else CUSTOMER_PHRASES_EN
  let (extra, g1) := pyRandint 2 6 g
  genSegLoop duration_sec ap cp si ((⌊duration_sec / 15⌋).toNat + extra.toNat)
    0 "AGENT" g1

/-- Stable insertion of a segment after all segments with a start time at
most its own. -/
def insertSeg (a : Seg) : List Seg → List Seg
  | [] => [a]
  | b :: t => if b.start_time ≤ a.start_time then b :: insertSeg a t else a :: b :: t

/-- Stable sort of segments by start time, as Python sorted with the
start_time key. -/
def sortSegs (l : List Seg) : List Seg := l.foldl (fun acc a => insertSeg a acc) []

/-- Consecutive pairs of a list. -/
def consecutivePairs (l : List α) : List (α × α) := l.zip l.tail

/-- Silence dict of detect_silences (stop and stype stand for the source
dict keys end and type, reserved words here). -/
structure Silence where
  start : ℚ
  stop : ℚ
  dur : ℚ
  stype : String
deriving DecidableEq, Repr

/-- Embedding of data_generation.detect_silences: gaps over 3 seconds
between consecutive sorted segments, plus the total-silence fraction of the
call. -/
def detect_silences (segments : List Seg) (duration_sec : ℚ) :
    List Silence × ℚ :=
  let sorted := sortSegs segments
  let silences := (consecutivePairs sorted).filterMap (fun pq =>
    let gap_start := pq.1.end_time
    let gap_end := pq.2.start_time
    let gap := gap_end - gap_start
    if 3 < gap then
      some ⟨roundTo 2 gap_start, roundTo 2 gap_end, roundTo 2 gap,
        if 10 < gap then "hold" else "pause"⟩
    else none)
  let total := (silences.map (fun s => s.dur)).sum
  (silences, if 0 < duration_sec then roundTo 3 (total / duration_sec) else 0)

/-- Interruption dict of detect_interruptions. -/
structure Interruption where
  time : ℚ
  interrupter : String
  interrupted : String
deriving DecidableEq, Repr

/-- Embedding of data_generation.detect_interruptions: a next sorted segment
starting before the current one ends. -/
def detect_interruptions (segments : List Seg) : List Interruption :=
  (consecutivePairs (sortSegs segments)).filterMap (fun pq =>
    if pq.2.start_time < pq.1.end_time then
      some ⟨roundTo 2 pq.2.start_time, pq.2.speaker, pq.1.speaker⟩
    else none)

/-- Sales opportunity dict (opp_type stands for the source key type). -/
structure SalesOpp where
  opp_type : String
  success : Bool
  value : ℚ
  product : String
deriving DecidableEq, Repr

/-- Embedding of data_generation.generate_sales_opportunity. -/
def generate_sales_opportunity (topic : String) (g : Gen) :
    Option SalesOpp × Gen :=
  let (u, g1) := pyRand g
  if 0.7 < u then (none, g1)
  else
    let (ot, g2) := pyChoice ["upsell", "cross_sell", "closing"] g1
    let rate : ℚ := if ot = "upsell" then 0.35
      else if ot = "cross_sell" then 0.42 else 0.61
    let (us, g3) := pyRand g2
    let lohi : ℚ × ℚ := if ot = "upsell" then (50, 200)
      else if ot = "cross_sell" then (30, 150) else (100, 500)
    let (v, g4) := pyUniform lohi.1 lohi.2 g3
    let (prod, g5) := pyChoice SALES_PRODUCTS g4
    (some ⟨ot, decide (us < rate), roundTo 2 v, prod⟩, g5)

/-- Embedding of data_generation.generate_autoqa_compliance: nine threshold
draws in dict order, then the conditionally drawn critical violations. -/
def generate_autoqa_compliance (topic language : String) (g : Gen) :
    List (String × Val) × Gen :=
  let (u1, g1) := pyRand g
  let (u2, g2) := pyRand g1
  let (u3, g3) := pyRand g2
  let (u4, g4) := pyRand g3
  let (u5, g5) := pyRand g4
  let (u6, g6) := pyRand g5
  let (u7, g7) := pyRand g6
  let (u8, g8) := pyRand g7
  let (u9, g9) := pyRand g8
  let dpm := decide (0.12 < u4)
  let cver := decide (0.1 < u3)
  let (cv1, gA) :=
    if !dpm then
      let (u, gx) := pyRand g9
      (if u < 0.5 then ["gdpr_missing"] else [], gx)
    else ([], g9)
  let (cv2, gB) :=
    if !cver then
      let (u, gx) := pyRand gA
      (if u < 0.3 then ["id_not_verified"] else [], gx)
    else ([], gA)
  ([("greeting_proper", .b (decide (0.05 < u1))),
    ("identification", .b (decide (0.08 < u2))),
    ("customer_verification", .b cver),
    ("data_protection_mentioned", .b dpm),
    ("call_recording_notice", .b (decide (0.15 < u5))),
    ("clear_communication", .b (decide (0.03 < u6))),
    ("no_misleading_info", .b (decide (0.02 < u7))),
    ("proper_closing", .b (decide (0.1 < u8))),
    ("opt_out_offered", .b (decide (0.2 < u9))),
    ("critical_violations", .sl (cv1 ++ cv2))], gB)

/-- Embedding of data_generation.generate_autoqa_resolution. -/
def generate_autoqa_resolution (topic : String) (g : Gen) : Resolution × Gen :=
  let complexity : ℚ := (topicCfg topic).complexity
  let full_prob := 0.85 - complexity * 0.1
  let (u1, g1) := pyRand g
  let (ra, sat, cb, gA) :=
    if u1 < full_prob then
      let (u2, g2) := pyRand g1
      ("full", decide (0.1 < u2), false, g2)
    else
      let (u2, g2) := pyRand g1
      if u2 < 0.7 then
        let (u3, g3) := pyRand g2
        let (u4, g4) := pyRand g3
        ("partial", decide (0.5 < u3), decide (u4 < 0.4), g4)
      else
        let (u3, g3) := pyRand g2
        ("none", false, decide (u3 < 0.6), g3)
  let (ue, gB) := pyRand gA
  let escalated := decide (ue < 0.05 + complexity * 0.02)
  let (reason, gC) :=
    if escalated then pyChoice ["authority", "knowledge", "customer_request"] gB
    else ("none", gB)
  (⟨true, topic, ra, sat, cb, escalated, reason⟩, gC)

/-- Embedding of data_generation.generate_autoqa_quality: the quality dict
in insertion order.  It sets no quality_score key. -/
def generate_autoqa_quality (topic : String) (res : Resolution) (g : Gen) :
    List (String × Val) × Gen :=
  let base : ℚ := if res.resolution_achieved = "full" then 0.85 else 0.6
  let (u1, g1) := pyRand g
  let (u2, g2) := pyRand g1
  let (u3, g3) := pyRand g2
  let (u4, g4) := pyRand g3
  let (u5, g5) := pyRand g4
  let al := decide (u1 < base)
  let es := decide (u2 < base - 0.1)
  let so := decide (u3 < base)
  let ws : List ℚ := if 0.7 < base then [0.7, 0.25, 0.05] else [0.4, 0.4, 0.2]
  let (sa, g6) := pyChoiceW ["good", "partial", "poor"] ws g5
  let (cc, g7) := pyChoiceW ["good", "partial", "poor"] ws g6
  let pos := (if es then ["Excellent empathy demonstrated"] else []) ++
    (if so then ["Clear solution provided"] else [])
  let neg := (if !al then ["Missed customer cues"] else []) ++
    (if sa = "poor" then ["Script not followed"] else [])
  ([("active_listening", .b al),
    ("empathy_shown", .b es),
    ("solution_offered", .b so),
    ("professional_tone", .b (decide (u4 < base + 0.1))),
    ("customer_name_used", .b (decide (u5 < 0.5))),
    ("script_adherence", .s sa),
    ("call_control", .s cc),
    ("positive_moments", .sl pos),
    ("negative_moments", .sl neg)], g7)

/-- Topic dict of generate_autoqa_topic. -/
structure TopicData where
  primary_topic : String
  sub_topics : List String
  customer_intent : String
  topic_complexity : ℕ
  keywords : List String
deriving DecidableEq, Repr

/-- Sub-topics per topic, from generate_autoqa_topic. -/
def subTopicsMap (t : String) : List String :=
  if t = "billing" then ["invoice", "payment", "charges"]
  else if t = "technical" then ["connectivity", "device", "software"]
  else if t = "product_info" then ["features", "pricing", "availability"]
  else if t = "complaint" then ["service", "quality", "delay"]
  else if t = "account" then ["login", "settings", "profile"]
  else if t = "order" then ["status", "delivery", "cancellation"]
  else []

/-- Intent weights per topic, from generate_autoqa_topic. -/
def intentWeights (t : String) : List ℚ :=
  if t = "billing" then [0.3, 0.5, 0.15, 0.05]
  else if t = "technical" then [0.2, 0.7, 0.05, 0.05]
  else if t = "product_info" then [0.8, 0.1, 0.05, 0.05]
  else if t = "complaint" then [0.1, 0.3, 0.6, 0.0]
  else if t = "account" then [0.4, 0.4, 0.1, 0.1]
  else if t = "order" then [0.5, 0.2, 0.1, 0.2]
  else []

/-- Embedding of data_generation.generate_autoqa_topic. -/
def generate_autoqa_topic (topic language : String) (g : Gen) :
    TopicData × Gen :=
  let (k, g1) := pyRandint 1 2 g
  let (subs, g2) := sampleK k.toNat (subTopicsMap topic) g1
  let (intent, g3) := pyChoiceW
    ["get_information", "resolve_problem", "make_complaint", "request_service"]
    (intentWeights topic) g2
  (⟨topic, subs, intent, (topicCfg topic).complexity, [topic, language]⟩, g3)

/-- Clamp to an interval. -/
def clampQ (lo hi x : ℚ) : ℚ := max lo (min hi x)

/-- Embedding of data_generation.generate_sentiment_journey. -/
def generate_sentiment_journey (topic : String) (res : Resolution) (g : Gen) :
    (ℚ × ℚ × ℚ) × Gen :=
  let (u1, g1) := pyUniform (-0.2) 0.2 g
  let start := clampQ (-1) 1 ((topicCfg topic).sent_start + u1)
  let (u2, g2) := pyUniform 0.1 0.3 g1
  let middle := clampQ (-1) 1 (start + u2)
  let (e, g3) :=
    if res.resolution_achieved = "full" then pyUniform 0.5 0.9 g2
    else if res.resolution_achieved = "partial" then pyUniform 0 0.5 g2
    else pyUniform (-0.6) 0.1 g2
  ((roundTo 3 start, roundTo 3 middle, roundTo 3 (clampQ (-1) 1 e)), g3)

/-- Row of the agents DataFrame. -/
structure AgentRow where
  agent_id : String
  agent_name : String
  team : String
deriving DecidableEq, Repr

/-- Czech first names pool of generate_agents. -/
def FIRST_NAMES_CS : List String :=
  ["Jan", "Petra", "Martin", "Kateřina", "Tomáš", "Jana", "Lukáš", "Markéta"]

/-- Czech last names pool of generate_agents. -/
def LAST_NAMES_CS : List String :=
  ["Novák", "Svobodová", "Dvořák", "Černá", "Procházka", "Kučerová"]

/-- Loop of generate_agents: three choice draws per agent. -/
def genAgentsLoop : ℕ → ℕ → Gen → List AgentRow × Gen
  | 0, _, g => ([], g)
  | n + 1, i, g =>
    let (first, g1) := pyChoice FIRST_NAMES_CS g
    let (last, g2) := pyChoice LAST_NAMES_CS g1
    let (team, g3) := pyChoice TEAMS g2
    let (rest, g4) := genAgentsLoop n (i + 1) g3
    (⟨"AG" ++ toString (1000 + i), first ++ " " ++ last, team⟩ :: rest, g4)

/-- Embedding of data_generation.generate_agents: reseeds both streams with
the seed, then draws the agents. -/
def generate_agents (n_agents : ℕ) (seed : ℤ) : List AgentRow × Gen :=
  genAgentsLoop n_agents 0 ⟨seed, 0, 0⟩

/-- One row of the calls DataFrame built by generate_dataset, with every
key of the source record (silence_frac stands for the silence-fraction key). -/
structure GenCall where
  call_id : String
  timestamp : ℤ
  direction : String
  language : String
  agent_id : String
  agent_name : String
  team : String
  duration_sec : ℚ
  agent_talk_sec : ℚ
  customer_talk_sec : ℚ
  turns : ℕ
  silence_frac : ℚ
  interrupt_count : ℕ
  sentiment_start : ℚ
  sentiment_middle : ℚ
  sentiment_end : ℚ
  compliance : List (String × Val)
  resolution : Resolution
  quality : List (String × Val)
  topic_data : TopicData
  sales_opportunity : Option SalesOpp
  autoqa_score : ℚ
  benchmark_aht : ℚ
deriving DecidableEq, Repr

/-- Everything one loop iteration of generate_dataset computes after the
timestamp draw, in source order; none of it reads the clock, so the
timestamp field is left at 0 for the caller to fill.  The autoqa-score step
looks the quality_score key up through the qsFn parameter (the source
expression quality applied to that key), so the lookup semantics is supplied
by the caller. -/
def genCallRest (qsFn : List (String × Val) → Except PyErr ℚ)
    (agents : List AgentRow) (si : Bool) (i : ℕ) (g : Gen) :
    Except PyErr (GenCall × List Seg × Gen) :=
  let call_id := "CALL-" ++ toString (10000 + i)
  let (dirv, g1) := pyChoiceW ["INBOUND", "OUTBOUND"] [0.8, 0.2] g
  let (lang, g2) := pyChoiceW ["cs", "sk", "en"] [0.4, 0.3, 0.3] g1
  let (ai, g3) := npRandBelow agents.length g2
  let agent := agents.getD ai ⟨"", "", ""⟩
  let (topic, g4) := pyChoice (TOPICS.map (fun p => p.1)) g3
  let base_duration := (topicCfg topic).avg_duration
  let (gvalue, g5) := pyGauss base_duration (base_duration * 0.3) g4
  let duration_sec := roundTo 1 (max 60 gvalue)
  let (segments, g6) := generate_transcript_segments duration_sec lang topic si g5
  let agent_talk := roundTo 1 ((segments.filter (fun s => s.speaker == "AGENT")).map
    (fun s => s.end_time - s.start_time)).sum
  let customer_talk := roundTo 1 ((segments.filter (fun s => s.speaker == "CUSTOMER")).map
    (fun s => s.end_time - s.start_time)).sum
  let silence_frac := (detect_silences segments duration_sec).2
  let interruptions := if si then detect_interruptions segments else []
  let (compliance, g7) := generate_autoqa_compliance topic lang g6
  let (resolution, g8) := generate_autoqa_resolution topic g7
  let (quality, g9) := generate_autoqa_quality topic resolution g8
  let (topic_data, g10) := generate_autoqa_topic topic lang g9
  let (sents, g11) := generate_sentiment_journey topic resolution g10
  let (sales, g12) := if agent.team = "Sales"
    then generate_sales_opportunity topic g11 else (none, g11)
  let comp9 : ℚ := (compliance.countP (fun p => p.2 == Val.b true)) / 9 * 100
  match qsFn quality with
  | .error e => .error e
  | .ok qsv =>
    .ok (⟨call_id, 0, dirv, lang, agent.agent_id, agent.agent_name, agent.team,
      duration_sec, agent_talk, customer_talk, segments.length, silence_frac,
      interruptions.length, sents.1, sents.2.1, sents.2.2, compliance,
      resolution, quality, topic_data, sales,
      roundTo 1 (comp9 * 0.6 + qsv * 0.4), (topicCfg topic).benchmark_aht⟩,
      segments, g12)

/-- One loop iteration of generate_dataset: the timestamp draw (the only
place where the wall-clock value now enters), then the rest of the record. -/
def genCall (qsFn : List (String × Val) → Except PyErr ℚ)
    (agents : List AgentRow) (si : Bool) (now : ℤ) (i : ℕ) (g : Gen) :
    Except PyErr (GenCall × List Seg × Gen) :=
  let r1 := pyRandint 0 2592000 g
  match genCallRest qsFn agents si i r1.2 with
  | .error e => .error e
  | .ok x => .ok ({x.1 with timestamp := now - 2592000 + r1.1}, x.2.1, x.2.2)

/-- Loop of generate_dataset from index i for r more calls, accumulating
the calls list and the transcripts dict in insertion order. -/
def genCallsFrom (qsFn : List (String × Val) → Except PyErr ℚ)
    (agents : List AgentRow) (si : Bool) (now : ℤ) :
    ℕ → ℕ → Gen → Except PyErr (List GenCall × List (String × List Seg) × Gen)
  | 0, _, g => .ok ([], [], g)
  | r + 1, i, g =>
    match genCall qsFn agents si now i g with
    | .error e => .error e
    | .ok x =>
      match genCallsFrom qsFn agents si now r (i + 1) x.2.2 with
      | .error e => .error e
      | .ok y => .ok (x.1 :: y.1, (x.1.call_id, x.2.1) :: y.2.1, y.2.2)

/-- Embedding of data_generation.generate_dataset up to the choice of the
quality-score lookup: seed both streams, generate the agents (which reseeds
with the same seed), then generate n_calls records.  The parameter now is
the datetime.now() value in epoch seconds, an input the source reads from
the environment. -/
def generateDatasetWith (qsFn : List (String × Val) → Except PyErr ℚ)
    (n_calls n_agents : ℕ) (seed : ℤ) (si : Bool) (now : ℤ) :
    Except PyErr (List GenCall × List (String × List Seg) × List AgentRow) :=
  let ag := generate_agents n_agents seed
  match genCallsFrom qsFn ag.1 si now n_calls 0 ag.2 with
  | .error e => .error e
  | .ok x => .ok (x.1, x.2.1, ag.1)

/-- The source expression quality of key quality_score: a KeyError, since
generate_autoqa_quality sets no such key. -/
def qsLookup (q : List (String × Val)) : Except PyErr ℚ :=
  match q.lookup "quality_score" with
  | none => .error (.keyError "quality_score")
  | some (.q x) => .ok x
  | some _ => .error .typeError

/-- Embedding of data_generation.generate_dataset as written. -/
def generate_dataset (n_calls n_agents : ℕ) (seed : ℤ) (si : Bool) (now : ℤ) :
    Except PyErr (List GenCall × List (String × List Seg) × List AgentRow) :=
  generateDatasetWith qsLookup n_calls n_agents seed si now

/-- Modelled from the spec: generate_dataset with the missing quality_score
lookup repaired, reading the quality checklist pass-rate the repository
computes elsewhere (quality_binary_score), so that the determinism the spec
asserts can be examined past the crash the source has at that line. -/
def generate_dataset_fixed (n_calls n_agents : ℕ) (seed : ℤ) (si : Bool)
    (now : ℤ) :
    Except PyErr (List GenCall × List (String × List Seg) × List AgentRow) :=
  generateDatasetWith (fun q => .ok (quality_binary_score q))
    n_calls n_agents seed si now

/-- Record with the timestamp field cleared, for comparing runs modulo the
clock. -/
def stripTs (c : GenCall) : GenCall := {c with timestamp := 0}

/-- Dataset result with every timestamp cleared. -/
def resultStrip (r : Except PyErr (List GenCall × List (String × List Seg) × List AgentRow)) :
    Except PyErr (List GenCall × List (String × List Seg) × List AgentRow) :=
  r.map (fun t => (t.1.map stripTs, t.2.1, t.2.2))

/-- Timestamp column of a dataset result (empty on an exception). -/
def tsOf (r : Except PyErr (List GenCall × List (String × List Seg) × List AgentRow)) :
    List ℤ :=
  match r with
  | .ok (cs, _, _) => cs.map (fun c => c.timestamp)
  | .error _ => []

/-- Timestamp of the first generated call, if any. -/
def firstTs (r : Except PyErr (List GenCall × List (String × List Seg) × List AgentRow)) :
    Option ℤ :=
  match r with
  | .ok (c :: _, _, _) => some c.timestamp
  | _ => none

/-- Values Python len accepts among the Val shapes: strings and lists (the
condition under which compliance_score returns instead of raising). -/
def lenCompat : Option Val → Bool
  | some (.b _) => false
  | some (.q _) => false
  | _ => true

/-- Sample resolution dict: a fully resolved billing call. -/
def resBilling : Resolution :=
  ⟨true, "billing", "full", true, false, false, "none"⟩

/-- Sample compliance dict of the shape the generator produces. -/
def compSample : List (String × Val) :=
  [("greeting_proper", .b true), ("identification", .b true),
   ("customer_verification", .b true), ("data_protection_mentioned", .b true),
   ("call_recording_notice", .b true), ("clear_communication", .b true),
   ("no_misleading_info", .b true), ("proper_closing", .b true),
   ("opt_out_offered", .b false), ("critical_violations", .sl [])]

/-- Sample quality dict of the shape the generator produces. -/
def qualSample : List (String × Val) :=
  [("active_listening", .b true), ("empathy_shown", .b true),
   ("solution_offered", .b true), ("professional_tone", .b false),
   ("customer_name_used", .b true), ("script_adherence", .s "good"),
   ("call_control", .s "good"), ("positive_moments", .sl []),
   ("negative_moments", .sl [])]

/-- Sample call: a 240-second fully resolved billing call. -/
def callBill : Call :=
  ⟨0, "AG1000", "Jan Novak", "Support", 240, -1/2, 1/2,
    compSample, resBilling, qualSample⟩

/-- Sample call: the same billing call taking 480 seconds. -/
def callBillSlow : Call := { callBill with duration_sec := 480 }

theorem countD_sum_dedup [DecidableEq α] (l : List α) :
    (l.dedup.map (fun a => countD l a)).sum = l.length := by
  have h : (fun a => countD l a) = fun a => l.count a := by
    funext a; rfl
  rw [h]
  exact List.sum_map_count_dedup_eq_length l

theorem lookup_filter_ne (l : List (String × List Val)) (name n : String)
    (h : n ≠ name) :
    (l.filter (fun p => p.1 != name)).lookup n = l.lookup n := by
  induction l with
  | nil => rfl
  | cons a t ih =>
    by_cases ha : a.1 = name
    · have hf : (a.1 != name) = false := by simp [ha]
      have hn : (n == a.1) = false := by simp [ha, h]
      simp [List.filter_cons, hf, List.lookup, hn, ih]
    · have hf : (a.1 != name) = true := by simp [ha]
      simp [List.filter_cons, hf, List.lookup, ih]

theorem lookup_append_right_ne (l : List (String × List Val)) (name n : String)
    (v : List Val) (h : n ≠ name) :
    (l ++ [(name, v)]).lookup n = l.lookup n := by
  induction l with
  | nil => simp [List.lookup, show (n == name) = false by simp [h]]
  | cons a t ih => by_cases hn : n = a.1 <;> simp [List.lookup, hn, ih]

theorem setCol_rows (df : DF) (name : String) (v : List Val) :
    (setCol df name v).rows = df.rows := rfl

theorem setCol_colVals_ne (df : DF) (name n : String) (v : List Val)
    (h : n ≠ name) : colVals (setCol df name v) n = colVals df n := by
  unfold colVals setCol
  rw [lookup_append_right_ne _ _ _ _ h, lookup_filter_ne _ _ _ h]

theorem compliance_score_isOk (comp : List (String × Val))
    (hcv : lenCompat (comp.lookup "critical_violations") = true) :
    ∃ out, compliance_score comp = .ok out := by
  unfold compliance_score
  by_cases h0 : (comp.filter (fun p => p.2.isBool)).length = 0
  · exact ⟨_, by rw [if_pos h0]⟩
  · rw [if_neg h0]
    unfold dictGet
    cases hl : comp.lookup "critical_violations" with
    | none => exact ⟨_, rfl⟩
    | some v =>
      cases v with
      | b x => rw [hl] at hcv; simp [lenCompat] at hcv
      | q x => rw [hl] at hcv; simp [lenCompat] at hcv
      | s t => exact ⟨_, rfl⟩
      | sl t => exact ⟨_, rfl⟩

theorem calculate_aes_for_call_isOk (c : Call)
    (hcv : lenCompat (c.compliance.lookup "critical_violations") = true) :
    ∃ v, calculate_aes_for_call c = .ok v := by
  obtain ⟨out, hout⟩ := compliance_score_isOk c.compliance hcv
  exact ⟨_, by unfold calculate_aes_for_call; rw [hout]⟩

theorem mapME_aes_isOk (rows : List Call)
    (h : ∀ c ∈ rows, lenCompat (c.compliance.lookup "critical_violations") = true) :
    ∃ l, mapME calculate_aes_for_call rows = .ok l := by
  induction rows with
  | nil => exact ⟨[], rfl⟩
  | cons a t ih =>
    obtain ⟨v, hv⟩ := calculate_aes_for_call_isOk a (h a (by simp))
    obtain ⟨l, hl⟩ := ih (fun c hc => h c (by simp [hc]))
    exact ⟨v :: l, by unfold mapME; rw [hv, hl]⟩

theorem mapME_comp_isOk (rows : List Call)
    (h : ∀ c ∈ rows, lenCompat (c.compliance.lookup "critical_violations") = true) :
    ∃ l, mapME (fun c => compliance_score c.compliance) rows = .ok l := by
  induction rows with
  | nil => exact ⟨[], rfl⟩
  | cons a t ih =>
    obtain ⟨v, hv⟩ := compliance_score_isOk a.compliance (h a (by simp))
    obtain ⟨l, hl⟩ := ih (fun c hc => h c (by simp [hc]))
    exact ⟨v :: l, by unfold mapME; rw [hv, hl]⟩

/-- C3: for sentiments in [-1, 1], comp and quality scores in [0, 100] and a
resolution outcome among full, partial and none, aes returns the claimed
weighted formula round(0.25 S + 0.30 comp + 0.30 R + 0.15 quality, 1) with S
the clamped scaled sentiment delta and R the 100/50/0 resolution component,
and the result lies in [0, 100]. -/
theorem aes_formula_and_range (ss se cs qs : ℚ) (ra : String)
    (hss1 : -1 ≤ ss) (hss2 : ss ≤ 1) (hse1 : -1 ≤ se) (hse2 : se ≤ 1)
    (hcs1 : 0 ≤ cs) (hcs2 : cs ≤ 100) (hqs1 : 0 ≤ qs) (hqs2 : qs ≤ 100)
    (hra : ra = "full" ∨ ra = "partial" ∨ ra = "none") :
    aes ss se cs ra qs =
      roundTo 1 (0.25 * max 0 (min 100 (((se - ss + 2) / 4) * 100)) + 0.30 * cs +
        0.30 * (if ra = "full" then (100:ℚ) else if ra = "partial" then 50 else 0) +
        0.15 * qs) ∧
    0 ≤ aes ss se cs ra qs ∧ aes ss se cs ra qs ≤ 100 := by
  have hS1 : (0:ℚ) ≤ max 0 (min 100 (((se - ss + 2) / 4) * 100)) := le_max_left _ _
  have hS2 : max 0 (min 100 (((se - ss + 2) / 4) * 100)) ≤ 100 :=
    max_le (by norm_num) (min_le_left _ _)
  have hR1 : (0:ℚ) ≤ (if ra = "full" then (100:ℚ) else if ra = "partial" then 50 else 0) := by
    split_ifs <;> norm_num
  have hR2 : (if ra = "full" then (100:ℚ) else if ra = "partial" then 50 else 0) ≤ 100 := by
    split_ifs <;> norm_num
  have hsum1 : (((0:ℤ)):ℚ) ≤ 0.25 * max 0 (min 100 (((se - ss + 2) / 4) * 100)) + 0.30 * cs +
      0.30 * (if ra = "full" then (100:ℚ) else if ra = "partial" then 50 else 0) +
      0.15 * qs := by push_cast; linarith
  have hsum2 : 0.25 * max 0 (min 100 (((se - ss + 2) / 4) * 100)) + 0.30 * cs +
      0.30 * (if ra = "full" then (100:ℚ) else if ra = "partial" then 50 else 0) +
      0.15 * qs ≤ (((100:ℤ)):ℚ) := by push_cast; linarith
  obtain ⟨hlo, hhi⟩ := roundTo_bounds 1 hsum1 hsum2
  refine ⟨rfl, ?_, ?_⟩
  · exact le_trans (by norm_num) hlo
  · exact le_trans hhi (by norm_num)

theorem aes_formula_and_range_witness :
    aes (-1/2) (1/2) 80 "full" 50 =
      roundTo 1 (0.25 * max 0 (min 100 ((((1:ℚ)/2 - (-1/2) + 2) / 4) * 100)) + 0.30 * 80 +
        0.30 * (if ("full":String) = "full" then (100:ℚ)
          else if ("full":String) = "partial" then 50 else 0) +
        0.15 * 50) ∧
    0 ≤ aes (-1/2) (1/2) 80 "full" 50 ∧ aes (-1/2) (1/2) 80 "full" 50 ≤ 100 :=
  aes_formula_and_range (-1/2) (1/2) 80 50 "full"
    (by norm_num) (by norm_num) (by norm_num) (by norm_num)
    (by norm_num) (by norm_num) (by norm_num) (by norm_num) (Or.inl rfl)

/-- C5: on a non-empty calls DataFrame, calculate_fcr_rate counts exactly the
calls fully resolved with no callback and no escalation and reports
round(100 count / total, 1); on an empty one it returns all zeros. -/
theorem calculate_fcr_rate_spec (calls : List Call) :
    (calls = [] → calculate_fcr_rate calls = ⟨0, 0, 0⟩) ∧
    (calls ≠ [] →
      (calculate_fcr_rate calls).fcr_count =
        (calls.filter (fun c => decide (c.resolution.resolution_achieved = "full" ∧
          c.resolution.callback_needed = false ∧ c.resolution.escalated = false))).length ∧
      (calculate_fcr_rate calls).fcr_rate =
        roundTo 1 (100 * ((calculate_fcr_rate calls).fcr_count : ℚ) / (calls.length : ℚ)) ∧
      (calculate_fcr_rate calls).total_calls = calls.length) := by
  constructor
  · intro h; subst h; rfl
  · intro h
    have hlen : ¬ calls.length = 0 := by
      simpa [List.length_eq_zero] using h
    have hpred : (fun c : Call => is_fcr c.resolution) =
        (fun c : Call => decide (c.resolution.resolution_achieved = "full" ∧
          c.resolution.callback_needed = false ∧ c.resolution.escalated = false)) := by
      funext c
      by_cases h1 : c.resolution.resolution_achieved = "full" <;>
        by_cases h2 : c.resolution.callback_needed <;>
        by_cases h3 : c.resolution.escalated <;>
        simp [is_fcr, h1, h2, h3]
    refine ⟨?_, ?_, ?_⟩
    · simp only [calculate_fcr_rate, if_neg hlen]
      rw [hpred, List.countP_eq_length_filter]
    · simp only [calculate_fcr_rate, if_neg hlen]
    · simp only [calculate_fcr_rate, if_neg hlen]

theorem calculate_fcr_rate_spec_witness :
    ([callBill] ≠ [] →
      (calculate_fcr_rate [callBill]).fcr_count =
        ([callBill].filter (fun c => decide (c.resolution.resolution_achieved = "full" ∧
          c.resolution.callback_needed = false ∧ c.resolution.escalated = false))).length ∧
      (calculate_fcr_rate [callBill]).fcr_rate =
        roundTo 1 (100 * ((calculate_fcr_rate [callBill]).fcr_count : ℚ) /
          (([callBill] : List Call).length : ℚ)) ∧
      (calculate_fcr_rate [callBill]).total_calls = ([callBill] : List Call).length) :=
  (calculate_fcr_rate_spec [callBill]).2

/-- C6: on a non-empty calls DataFrame, calculate_escalation_prevention_rate
counts the escalated calls, reports epr = round(100 (total − escalated) /
total, 1), prevented and escalated counts partition the calls, and the
reasons_breakdown counts sum to the escalated count. -/
theorem calculate_epr_spec (calls : List Call) (h : calls ≠ []) :
    (calculate_escalation_prevention_rate calls).escalated_count =
      calls.countP (fun c => c.resolution.escalated) ∧
    (calculate_escalation_prevention_rate calls).epr =
      roundTo 1 (100 * ((calls.length : ℚ) -
        ((calculate_escalation_prevention_rate calls).escalated_count : ℚ)) /
        (calls.length : ℚ)) ∧
    (calculate_escalation_prevention_rate calls).prevented_count +
      (calculate_escalation_prevention_rate calls).escalated_count = calls.length ∧
    ((calculate_escalation_prevention_rate calls).reasons_breakdown.map
      (fun p => p.2)).sum =
      (calculate_escalation_prevention_rate calls).escalated_count := by
  have hlen : ¬ calls.length = 0 := by
    simpa [List.length_eq_zero] using h
  have hle : calls.countP (fun c => c.resolution.escalated) ≤ calls.length :=
    List.countP_le_length _
  refine ⟨?_, ?_, ?_, ?_⟩
  · simp only [calculate_escalation_prevention_rate, if_neg hlen]
  · simp only [calculate_escalation_prevention_rate, if_neg hlen]
    congr 1
    rw [Nat.cast_sub hle]
  · simp only [calculate_escalation_prevention_rate, if_neg hlen]
    omega
  · simp only [calculate_escalation_prevention_rate, if_neg hlen]
    rw [List.map_map]
    have hcomp : ((fun p : String × ℕ => p.2) ∘ fun r =>
        (r, countD ((calls.filter (fun c => c.resolution.escalated)).map
          (fun c => c.resolution.escalation_reason)) r)) =
        (fun r => countD ((calls.filter (fun c => c.resolution.escalated)).map
          (fun c => c.resolution.escalation_reason)) r) := rfl
    rw [hcomp, countD_sum_dedup, List.length_map,
      ← List.countP_eq_length_filter]

theorem calculate_epr_spec_witness :
    (calculate_escalation_prevention_rate [callBill]).escalated_count =
      [callBill].countP (fun c => c.resolution.escalated) ∧
    (calculate_escalation_prevention_rate [callBill]).epr =
      roundTo 1 (100 * ((([callBill] : List Call).length : ℚ) -
        ((calculate_escalation_prevention_rate [callBill]).escalated_count : ℚ)) /
        (([callBill] : List Call).length : ℚ)) ∧
    (calculate_escalation_prevention_rate [callBill]).prevented_count +
      (calculate_escalation_prevention_rate [callBill]).escalated_count =
      ([callBill] : List Call).length ∧
    ((calculate_escalation_prevention_rate [callBill]).reasons_breakdown.map
      (fun p => p.2)).sum =
      (calculate_escalation_prevention_rate [callBill]).escalated_count :=
  calculate_epr_spec [callBill] (by simp)

/-- C4 counterexample: on the AES list [0, 0, 0, 0, 5] (values in [0, 100])
the population std is exactly 2 and std/mean = 2, so the claimed formula
100 − 100 (std/mean) is −100 while the aci field the code returns is 0 (the
code clamps at 0); the claim as stated is false. -/
theorem aci_formula_counterexample :
    (0:ℚ) ≤ 2 ∧ (2:ℚ) ^ 2 = npVar [0, 0, 0, 0, 5] ∧
    2 ≤ ([0, 0, 0, 0, 5] : List ℚ).length ∧
    (aci [0, 0, 0, 0, 5] 2).aci ≠
      roundTo 1 (100 - 100 * (2 / npMean [0, 0, 0, 0, 5])) := by
  refine ⟨by norm_num, by with_unfolding_all decide, by norm_num,
    by with_unfolding_all decide⟩

/-- C4 amended: for a list of at least two AES values with positive mean and
std the population standard deviation, the aci field equals
round(max(0, 100 − 100 (std/mean)), 1) — the claimed formula clamped at 0 —
and an agent with lower or equal relative dispersion still receives a higher
or equal index. -/
theorem aci_amended (l1 l2 : List ℚ) (s1 s2 : ℚ)
    (h1 : 2 ≤ l1.length) (h2 : 2 ≤ l2.length)
    (hs1 : 0 ≤ s1) (hs2 : 0 ≤ s2)
    (hv1 : s1 ^ 2 = npVar l1) (hv2 : s2 ^ 2 = npVar l2)
    (hm1 : 0 < npMean l1) (hm2 : 0 < npMean l2) :
    (aci l1 s1).aci = roundTo 1 (max 0 (100 - 100 * (s1 / npMean l1))) ∧
    (s1 / npMean l1 ≤ s2 / npMean l2 → (aci l2 s2).aci ≤ (aci l1 s1).aci) := by
  have e1 : (aci l1 s1).aci = roundTo 1 (max 0 (100 - 100 * (s1 / npMean l1))) := by
    unfold aci
    rw [if_neg (by omega)]
    dsimp only
    rw [if_pos hm1]
  have e2 : (aci l2 s2).aci = roundTo 1 (max 0 (100 - 100 * (s2 / npMean l2))) := by
    unfold aci
    rw [if_neg (by omega)]
    dsimp only
    rw [if_pos hm2]
  refine ⟨e1, fun hcv => ?_⟩
  rw [e1, e2]
  exact roundTo_mono 1 (max_le_max le_rfl (by linarith))

theorem aci_amended_witness :
    (aci [4, 4] 0).aci = roundTo 1 (max 0 (100 - 100 * (0 / npMean [4, 4]))) ∧
    ((0:ℚ) / npMean [4, 4] ≤ 3 / npMean [1, 7] →
      (aci [1, 7] 3).aci ≤ (aci [4, 4] 0).aci) :=
  aci_amended [4, 4] [1, 7] 0 3 (by norm_num) (by norm_num) (by norm_num)
    (by norm_num) (by with_unfolding_all decide) (by with_unfolding_all decide)
    (by with_unfolding_all decide) (by with_unfolding_all decide)

theorem treEfficiency_bounds (a b : ℚ) (hb : 0 < b) :
    0 ≤ treEfficiency a b ∧ treEfficiency a b ≤ 100 := by
  unfold treEfficiency
  split_ifs with h
  · norm_num
  · refine ⟨le_max_left _ _, max_le (by norm_num) ?_⟩
    have : 0 < (a - b) / b := div_pos (by linarith) hb
    linarith

theorem treEfficiency_anti (a1 a2 b : ℚ) (hb : 0 < b) (h : a1 ≤ a2) :
    treEfficiency a2 b ≤ treEfficiency a1 b := by
  unfold treEfficiency
  split_ifs with h1 h2 h2
  · exact le_rfl
  · exact absurd (le_trans h h1) h2
  · refine max_le (by norm_num) ?_
    have : 0 < (a2 - b) / b := div_pos (by linarith) hb
    linarith
  · refine max_le_max le_rfl ?_
    have := div_le_div_of_nonneg_right (sub_le_sub_right h b) hb.le
    linarith

/-- C7: for a topic of TOPICS with at least one call, the calculate_tre row
carries efficiency round(100, 1) = 100 when the topic mean duration is at
most the benchmark and round(max(0, 100 (1 − overrun/benchmark)), 1)
otherwise; the efficiency lies in [0, 100] and is non-increasing in the
topic average handling time. -/
theorem calculate_tre_spec (calls calls2 : List Call) (topic : String)
    (cfg : TopicCfg) (hmem : (topic, cfg) ∈ TOPICS)
    (h1 : topicCalls calls topic ≠ [])
    (h2 : topicCalls calls2 topic ≠ [])
    (havg : avgDuration (topicCalls calls topic) ≤
      avgDuration (topicCalls calls2 topic)) :
    treRowFor calls topic cfg ∈ calculate_tre calls ∧
    (avgDuration (topicCalls calls topic) ≤ cfg.avg_duration →
      (treRowFor calls topic cfg).efficiency = 100) ∧
    (¬ avgDuration (topicCalls calls topic) ≤ cfg.avg_duration →
      (treRowFor calls topic cfg).efficiency =
        roundTo 1 (max 0 (100 * (1 -
          (avgDuration (topicCalls calls topic) - cfg.avg_duration) /
            cfg.avg_duration)))) ∧
    0 ≤ (treRowFor calls topic cfg).efficiency ∧
    (treRowFor calls topic cfg).efficiency ≤ 100 ∧
    (treRowFor calls2 topic cfg).efficiency ≤ (treRowFor calls topic cfg).efficiency := by
  have hb : 0 < cfg.avg_duration := by
    have hall : ∀ p ∈ TOPICS, (0:ℚ) < p.2.avg_duration := by
      with_unfolding_all decide
    exact hall (topic, cfg) hmem
  have hlen : ¬ (topicCalls calls topic).length = 0 := by
    simpa [List.length_eq_zero] using h1
  have heff : (treRowFor calls topic cfg).efficiency =
      roundTo 1 (treEfficiency (avgDuration (topicCalls calls topic))
        cfg.avg_duration) := rfl
  have heff2 : (treRowFor calls2 topic cfg).efficiency =
      roundTo 1 (treEfficiency (avgDuration (topicCalls calls2 topic))
        cfg.avg_duration) := rfl
  obtain ⟨hb1, hb2⟩ :=
    treEfficiency_bounds (avgDuration (topicCalls calls topic)) cfg.avg_duration hb
  refine ⟨?_, ?_, ?_, ?_, ?_, ?_⟩
  · apply List.mem_filterMap.2
    exact ⟨(topic, cfg), hmem, by simp [h1]⟩
  · intro hle
    rw [heff]
    unfold treEfficiency
    rw [if_pos hle]
    have h100 := roundTo_intCast 1 100
    simpa using h100
  · intro hgt
    rw [heff]
    unfold treEfficiency
    rw [if_neg hgt]
  · rw [heff]
    have := (@roundTo_bounds 1 0 100 _
      (by push_cast; linarith) (by push_cast; linarith)).1
    simpa using this
  · rw [heff]
    have := (@roundTo_bounds 1 0 100 _
      (by push_cast; linarith) (by push_cast; linarith)).2
    simpa using this
  · rw [heff, heff2]
    exact roundTo_mono 1 (treEfficiency_anti _ _ _ hb havg)

theorem calculate_tre_spec_witness :
    treRowFor [callBill] "billing" ⟨2, 240, -0.3, 4.2⟩ ∈ calculate_tre [callBill] ∧
    (avgDuration (topicCalls [callBill] "billing") ≤ (240:ℚ) →
      (treRowFor [callBill] "billing" ⟨2, 240, -0.3, 4.2⟩).efficiency = 100) ∧
    (¬ avgDuration (topicCalls [callBill] "billing") ≤ (240:ℚ) →
      (treRowFor [callBill] "billing" ⟨2, 240, -0.3, 4.2⟩).efficiency =
        roundTo 1 (max 0 (100 * (1 -
          (avgDuration (topicCalls [callBill] "billing") - (240:ℚ)) / (240:ℚ))))) ∧
    0 ≤ (treRowFor [callBill] "billing" ⟨2, 240, -0.3, 4.2⟩).efficiency ∧
    (treRowFor [callBill] "billing" ⟨2, 240, -0.3, 4.2⟩).efficiency ≤ 100 ∧
    (treRowFor [callBillSlow] "billing" ⟨2, 240, -0.3, 4.2⟩).efficiency ≤
      (treRowFor [callBill] "billing" ⟨2, 240, -0.3, 4.2⟩).efficiency :=
  calculate_tre_spec [callBill] [callBillSlow] "billing" ⟨2, 240, -0.3, 4.2⟩
    (by with_unfolding_all decide) (by with_unfolding_all decide)
    (by with_unfolding_all decide) (by with_unfolding_all decide)

/-- C9: bucket_sentiment maps every value to exactly one of Neg, Neutral and
Pos by the −0.2 and 0.2 thresholds, and on a non-empty calls DataFrame the
transition counts of compute_sentiment_buckets sum to the number of calls. -/
theorem bucket_and_transitions_spec (v : ℚ) (calls : List Call) (h : calls ≠ []) :
    (v < -0.2 → bucket_sentiment v = "Neg") ∧
    (-0.2 ≤ v → v ≤ 0.2 → bucket_sentiment v = "Neutral") ∧
    (0.2 < v → bucket_sentiment v = "Pos") ∧
    ((compute_sentiment_buckets calls).map (fun r => r.count)).sum = calls.length := by
  have hlen : ¬ calls.length = 0 := by
    simpa [List.length_eq_zero] using h
  refine ⟨?_, ?_, ?_, ?_⟩
  · intro hv; unfold bucket_sentiment; rw [if_pos hv]
  · intro hv1 hv2; unfold bucket_sentiment
    rw [if_neg (not_lt.2 hv1), if_pos hv2]
  · intro hv; unfold bucket_sentiment
    rw [if_neg (not_lt.2 (by linarith)), if_neg (not_le.2 hv)]
  · simp only [compute_sentiment_buckets, if_neg hlen]
    rw [List.map_map]
    have hc : ((fun r : TransRow => r.count) ∘ fun p : String × String =>
        TransRow.mk p.1 p.2 (countD (transitionPairs calls) p)
          (roundTo 1 (100 * (countD (transitionPairs calls) p) / calls.length))) =
        fun p => countD (transitionPairs calls) p := rfl
    rw [hc, countD_sum_dedup]
    simp [transitionPairs]

theorem bucket_and_transitions_spec_witness :
    ((0:ℚ) < -0.2 → bucket_sentiment 0 = "Neg") ∧
    (-0.2 ≤ (0:ℚ) → (0:ℚ) ≤ 0.2 → bucket_sentiment 0 = "Neutral") ∧
    (0.2 < (0:ℚ) → bucket_sentiment 0 = "Pos") ∧
    ((compute_sentiment_buckets [callBill]).map (fun r => r.count)).sum =
      ([callBill] : List Call).length :=
  bucket_and_transitions_spec 0 [callBill] (by simp)

/-- C10 counterexample: on the dict with the single entry
critical_violations ↦ True the function reaches len(True) and raises a
TypeError instead of returning a score, so the claim quantified over every
input dict is false. -/
theorem compliance_score_arbitrary_dict_counterexample :
    compliance_score [("critical_violations", Val.b true)] = .error .typeError := rfl

/-- C10 amended: for every input dict whose critical_violations value, when
present, is a sequence (a string or a list, so that len is defined),
compliance_score returns a score in [0, 100], a risk_level tied to the
risk_points thresholds 5 and 15 exactly as claimed, and the dict
(0.0, 100, High) on an input with no boolean fields. -/
theorem compliance_score_amended (comp : List (String × Val))
    (hcv : lenCompat (comp.lookup "critical_violations") = true) :
    ∃ out, compliance_score comp = .ok out ∧
      0 ≤ out.score ∧ out.score ≤ 100 ∧
      (out.risk_level = "Low" ↔ out.risk_points < 5) ∧
      (out.risk_level = "Medium" ↔ 5 ≤ out.risk_points ∧ out.risk_points < 15) ∧
      (out.risk_level = "High" ↔ 15 ≤ out.risk_points) ∧
      ((comp.filter (fun p => p.2.isBool)).length = 0 →
        out = ⟨0, 100, "High", none⟩) := by
  by_cases h0 : (comp.filter (fun p => p.2.isBool)).length = 0
  · refine ⟨⟨0, 100, "High", none⟩, ?_, by norm_num, by norm_num,
      by decide, by decide, by decide, fun _ => rfl⟩
    unfold compliance_score
    rw [if_pos h0]
  · have hpy : ∃ n, (dictGet comp "critical_violations" (.sl [])).pyLen = .ok n := by
      unfold dictGet
      cases hl : comp.lookup "critical_violations" with
      | none => exact ⟨0, rfl⟩
      | some v =>
        cases v with
        | b x => rw [hl] at hcv; simp [lenCompat] at hcv
        | q x => rw [hl] at hcv; simp [lenCompat] at hcv
        | s t => exact ⟨t.length, rfl⟩
        | sl t => exact ⟨t.length, rfl⟩
    obtain ⟨n, hn⟩ := hpy
    have hlt : (comp.filter (fun p => p.2.isBool)).countP (fun p => p.2.truthy) ≤
        (comp.filter (fun p => p.2.isBool)).length := List.countP_le_length _
    have hpos : 0 < ((comp.filter (fun p => p.2.isBool)).length : ℚ) := by
      have := Nat.pos_of_ne_zero h0
      exact_mod_cast this
    unfold compliance_score
    rw [if_neg h0]
    dsimp only
    rw [hn]
    refine ⟨_, rfl, ?_, ?_, ?_, ?_, ?_, fun hh => absurd hh h0⟩
    · have h1 : (((0:ℤ)):ℚ) ≤ 100 *
          ((comp.filter (fun p => p.2.isBool)).countP (fun p => p.2.truthy) : ℚ) /
          ((comp.filter (fun p => p.2.isBool)).length : ℚ) := by
        push_cast
        positivity
      have := (@roundTo_bounds 1 0 100 _ h1 ?_).1
      · simpa using this
      · rw [div_le_iff hpos]
        push_cast
        have : ((comp.filter (fun p => p.2.isBool)).countP (fun p => p.2.truthy) : ℚ) ≤
            ((comp.filter (fun p => p.2.isBool)).length : ℚ) := by exact_mod_cast hlt
        nlinarith
    · have h1 : (((0:ℤ)):ℚ) ≤ 100 *
          ((comp.filter (fun p => p.2.isBool)).countP (fun p => p.2.truthy) : ℚ) /
          ((comp.filter (fun p => p.2.isBool)).length : ℚ) := by
        push_cast
        positivity
      have := (@roundTo_bounds 1 0 100 _ h1 ?_).2
      · simpa using this
      · rw [div_le_iff hpos]
        push_cast
        have : ((comp.filter (fun p => p.2.isBool)).countP (fun p => p.2.truthy) : ℚ) ≤
            ((comp.filter (fun p => p.2.isBool)).length : ℚ) := by exact_mod_cast hlt
        nlinarith
    · split_ifs with hA hB <;> simp_all <;> omega
    · split_ifs with hA hB <;> simp_all <;> omega
    · split_ifs with hA hB <;> simp_all <;> omega

theorem compliance_score_amended_witness :
    ∃ out, compliance_score compSample = .ok out ∧
      0 ≤ out.score ∧ out.score ≤ 100 ∧
      (out.risk_level = "Low" ↔ out.risk_points < 5) ∧
      (out.risk_level = "Medium" ↔ 5 ≤ out.risk_points ∧ out.risk_points < 15) ∧
      (out.risk_level = "High" ↔ 15 ≤ out.risk_points) ∧
      ((compSample.filter (fun p => p.2.isBool)).length = 0 →
        out = ⟨0, 100, "High", none⟩) :=
  compliance_score_amended compSample rfl

/-- C2: generate_dataset never returns: already on the first call record the
autoqa-score step reads the quality_score key that generate_autoqa_quality
never sets, so the function raises KeyError quality_score instead of
producing n_calls records (the widgets that read quality_score from the
quality dict show the key was intended to exist). -/
theorem generate_dataset_crashes :
    generate_dataset 1 1 42 false 0 = .error (.keyError "quality_score") ∧
    ((generate_autoqa_quality "billing" resBilling ⟨42, 0, 0⟩).1.lookup
      "quality_score") = none :=
  ⟨rfl, rfl⟩

theorem genCall_clock (qsFn : List (String × Val) → Except PyErr ℚ)
    (agents : List AgentRow) (si : Bool) (t1 t2 : ℤ) (i : ℕ) (g : Gen) :
    (genCall qsFn agents si t1 i g).map (fun x => (stripTs x.1, x.2.1, x.2.2)) =
      (genCall qsFn agents si t2 i g).map (fun x => (stripTs x.1, x.2.1, x.2.2)) ∧
    (genCall qsFn agents si t2 i g).map (fun x => x.1.timestamp) =
      (genCall qsFn agents si t1 i g).map (fun x => x.1.timestamp + (t2 - t1)) := by
  unfold genCall
  dsimp only
  cases h : genCallRest qsFn agents si i (pyRandint 0 2592000 g).2 with
  | error e => exact ⟨rfl, rfl⟩
  | ok x =>
    constructor
    · simp only [Except.map, stripTs]
    · simp only [Except.map]
      congr 1
      ring

theorem genCallsFrom_clock (qsFn : List (String × Val) → Except PyErr ℚ)
    (agents : List AgentRow) (si : Bool) (t1 t2 : ℤ) :
    ∀ (r i : ℕ) (g : Gen),
    (genCallsFrom qsFn agents si t1 r i g).map
        (fun x => (x.1.map stripTs, x.2.1, x.2.2)) =
      (genCallsFrom qsFn agents si t2 r i g).map
        (fun x => (x.1.map stripTs, x.2.1, x.2.2)) ∧
    (genCallsFrom qsFn agents si t2 r i g).map
        (fun x => x.1.map (fun c => c.timestamp)) =
      (genCallsFrom qsFn agents si t1 r i g).map
        (fun x => x.1.map (fun c => c.timestamp + (t2 - t1))) := by
  intro r
  induction r with
  | zero => exact fun i g => ⟨rfl, rfl⟩
  | succ r ih =>
    intro i g
    obtain ⟨hs, ht⟩ := genCall_clock qsFn agents si t1 t2 i g
    unfold genCallsFrom
    cases h1 : genCall qsFn agents si t1 i g with
    | error e =>
      cases h2 : genCall qsFn agents si t2 i g with
      | error e2 =>
        rw [h1, h2] at hs
        simp only [Except.map, Except.error.injEq] at hs
        subst hs
        exact ⟨rfl, rfl⟩
      | ok x2 =>
        rw [h1, h2] at hs
        simp [Except.map] at hs
    | ok x1 =>
      cases h2 : genCall qsFn agents si t2 i g with
      | error e2 =>
        rw [h1, h2] at hs
        simp [Except.map] at hs
      | ok x2 =>
        rw [h1, h2] at hs ht
        simp only [Except.map, Except.ok.injEq, Prod.mk.injEq] at hs ht
        obtain ⟨e1, e2, e3⟩ := hs
        have hcid : x1.1.call_id = x2.1.call_id := by
          simpa [stripTs] using congrArg GenCall.call_id e1
        dsimp only
        rw [← e3]
        obtain ⟨ihs, iht⟩ := ih (i + 1) x1.2.2
        cases hr1 : genCallsFrom qsFn agents si t1 r (i + 1) x1.2.2 with
        | error er1 =>
          cases hr2 : genCallsFrom qsFn agents si t2 r (i + 1) x1.2.2 with
          | error er2 =>
            rw [hr1, hr2] at ihs
            simp only [Except.map, Except.error.injEq] at ihs
            subst ihs
            exact ⟨rfl, rfl⟩
          | ok y2 =>
            rw [hr1, hr2] at ihs
            simp [Except.map] at ihs
        | ok y1 =>
          cases hr2 : genCallsFrom qsFn agents si t2 r (i + 1) x1.2.2 with
          | error er2 =>
            rw [hr1, hr2] at ihs
            simp [Except.map] at ihs
          | ok y2 =>
            rw [hr1, hr2] at ihs iht
            simp only [Except.map, Except.ok.injEq, Prod.mk.injEq] at ihs iht
            obtain ⟨f1, f2, f3⟩ := ihs
            constructor
            · simp only [Except.map, Except.ok.injEq, Prod.mk.injEq]
              exact ⟨by simp [e1, f1], by simp [hcid, e2, f2], f3⟩
            · simp only [Except.map, Except.ok.injEq, Prod.mk.injEq]
              simp only [List.map_cons]
              rw [ht, iht]

/-- C1 amended: the dataset is a deterministic function of the seed and the
datetime.now() value read at invocation.  For the generator with the
quality_score crash repaired (see C2), any two invocations agree on the
agents table, on every transcript and on every call field except timestamp,
whatever the clock reads, and the timestamps shift exactly with the clock;
in particular two invocations with equal clock values return identical
results, but the dataset is not a function of the seed alone. -/
theorem generate_dataset_fixed_deterministic_modulo_clock
    (n_calls n_agents : ℕ) (seed : ℤ) (si : Bool) (t1 t2 : ℤ) :
    resultStrip (generate_dataset_fixed n_calls n_agents seed si t1) =
      resultStrip (generate_dataset_fixed n_calls n_agents seed si t2) ∧
    tsOf (generate_dataset_fixed n_calls n_agents seed si t2) =
      (tsOf (generate_dataset_fixed n_calls n_agents seed si t1)).map
        (fun t => t + (t2 - t1)) := by
  obtain ⟨hs, ht⟩ := genCallsFrom_clock (fun q => .ok (quality_binary_score q))
    (generate_agents n_agents seed).1 si t1 t2 n_calls 0
    (generate_agents n_agents seed).2
  unfold generate_dataset_fixed generateDatasetWith resultStrip tsOf
  dsimp only
  cases h1 : genCallsFrom (fun q => .ok (quality_binary_score q))
      (generate_agents n_agents seed).1 si t1 n_calls 0
      (generate_agents n_agents seed).2 with
  | error e =>
    cases h2 : genCallsFrom (fun q => .ok (quality_binary_score q))
        (generate_agents n_agents seed).1 si t2 n_calls 0
        (generate_agents n_agents seed).2 with
    | error e2 =>
      rw [h1, h2] at hs
      simp only [Except.map, Except.error.injEq] at hs
      subst hs
      exact ⟨rfl, rfl⟩
    | ok y2 =>
      rw [h1, h2] at hs
      simp [Except.map] at hs
  | ok y1 =>
    cases h2 : genCallsFrom (fun q => .ok (quality_binary_score q))
        (generate_agents n_agents seed).1 si t2 n_calls 0
        (generate_agents n_agents seed).2 with
    | error e2 =>
      rw [h1, h2] at hs
      simp [Except.map] at hs
    | ok y2 =>
      rw [h1, h2] at hs ht
      simp only [Except.map, Except.ok.injEq, Prod.mk.injEq] at hs ht
      obtain ⟨f1, f2, f3⟩ := hs
      constructor
      · simp only [Except.map, Except.ok.injEq, Prod.mk.injEq]
        exact ⟨f1, f2, trivial⟩
      · simpa using ht

/-- C1 counterexample: as written every invocation raises (so none returns
the claimed triple), and with the crash repaired two invocations with the
same arguments but clock values one second apart return different calls
DataFrames: the first call timestamp differs. -/
theorem generate_dataset_seed_determinism_counterexample :
    generate_dataset 1 1 0 false 2592000 = .error (.keyError "quality_score") ∧
    firstTs (generate_dataset_fixed 1 1 0 false 2592000) ≠
      firstTs (generate_dataset_fixed 1 1 0 false 2592001) := by
  refine ⟨rfl, ?_⟩
  with_unfolding_all decide

/-- C8 counterexample: on a one-call DataFrame with no extra columns, both
calculate_agent_aggregates and calculate_7day_trend return normally yet
leave the caller's DataFrame changed (columns were added in place), so the
claim that every metric computation leaves calls_df exactly as it was is
false. -/
theorem metric_functions_mutate_counterexample :
    (calculate_agent_aggregates ⟨[callBill], []⟩).toOption ≠
      some ⟨[callBill], []⟩ ∧
    (calculate_agent_aggregates ⟨[callBill], []⟩).toOption ≠ none ∧
    (calculate_7day_trend ⟨[callBill], []⟩ "aes").toOption ≠
      some ⟨[callBill], []⟩ ∧
    (calculate_7day_trend ⟨[callBill], []⟩ "aes").toOption ≠ none := by
  refine ⟨?_, ?_, ?_, ?_⟩ <;> with_unfolding_all decide

/-- C8 amended: the metric functions never touch the base rows and only add
or overwrite the derived columns — calculate_agent_aggregates the columns
aes, comp_score and is_fcr, calculate_7day_trend the columns aes and date —
whenever every row's critical_violations value supports len (otherwise the
underlying compliance_score raises). -/
theorem metric_functions_mutation_frame (df : DF)
    (h : ∀ c ∈ df.rows, lenCompat (c.compliance.lookup "critical_violations") = true) :
    (∃ post, calculate_agent_aggregates df = .ok post ∧
      post.rows = df.rows ∧
      ∀ n, n ≠ "aes" → n ≠ "comp_score" → n ≠ "is_fcr" →
        colVals post n = colVals df n) ∧
    (∃ post, calculate_7day_trend df "aes" = .ok post ∧
      post.rows = df.rows ∧
      ∀ n, n ≠ "aes" → n ≠ "date" → colVals post n = colVals df n) := by
  obtain ⟨l1, hl1⟩ := mapME_aes_isOk df.rows h
  obtain ⟨l2, hl2⟩ := mapME_comp_isOk df.rows h
  constructor
  · have heq : calculate_agent_aggregates df =
        .ok (setCol (setCol (setCol df "aes" (l1.map Val.q)) "comp_score"
          (l2.map (fun o => Val.q o.score))) "is_fcr"
          (df.rows.map (fun c => Val.b (is_fcr c.resolution)))) := by
      unfold calculate_agent_aggregates
      rw [hl1]
      dsimp only
      rw [hl2]
    refine ⟨_, heq, rfl, fun n hn1 hn2 hn3 => ?_⟩
    rw [setCol_colVals_ne _ _ _ _ hn3, setCol_colVals_ne _ _ _ _ hn2,
      setCol_colVals_ne _ _ _ _ hn1]
  · by_cases hmem : "aes" ∈ df.columns
    · have heq : calculate_7day_trend df "aes" =
          .ok (setCol df "date"
            (df.rows.map (fun c => Val.q (Int.fdiv c.timestamp 86400)))) := by
        unfold calculate_7day_trend
        dsimp only
        rw [if_pos hmem]
      refine ⟨_, heq, rfl, fun n hn1 hn2 => ?_⟩
      rw [setCol_colVals_ne _ _ _ _ hn2]
    · have heq : calculate_7day_trend df "aes" =
          .ok (setCol (setCol df "aes" (l1.map Val.q)) "date"
            ((setCol df "aes" (l1.map Val.q)).rows.map
              (fun c => Val.q (Int.fdiv c.timestamp 86400)))) := by
        unfold calculate_7day_trend
        dsimp only
        rw [if_neg hmem, if_pos rfl, hl1]
        rfl
      refine ⟨_, heq, rfl, fun n hn1 hn2 => ?_⟩
      rw [setCol_colVals_ne _ _ _ _ hn2, setCol_colVals_ne _ _ _ _ hn1]

theorem metric_functions_mutation_frame_witness :
    (∃ post, calculate_agent_aggregates ⟨[callBill], []⟩ = .ok post ∧
      post.rows = (⟨[callBill], []⟩ : DF).rows ∧
      ∀ n, n ≠ "aes" → n ≠ "comp_score" → n ≠ "is_fcr" →
        colVals post n = colVals ⟨[callBill], []⟩ n) ∧
    (∃ post, calculate_7day_trend ⟨[callBill], []⟩ "aes" = .ok post ∧
      post.rows = (⟨[callBill], []⟩ : DF).rows ∧
      ∀ n, n ≠ "aes" → n ≠ "date" → colVals post n = colVals ⟨[callBill], []⟩ n) :=
  metric_functions_mutation_frame ⟨[callBill], []⟩ (by with_unfolding_all decide)
